import Mathlib

/-!
# Verification of the `lnx-parsers` Rust configuration parser

Shallow embedding of `src/lnx-parsers/rust/src/lib.rs`: a line-oriented
parser for network-node configuration files (`interface`, `neighbor`,
`routing`, `route`, `rip` directives) accumulating into an `IPConfig`
aggregate.

Strings are Lean `String`s, but every string operation used by the source
(splitting, comparing, concatenating) is implemented here by structural
recursion over the character list, so that every definition evaluates by
`decide` / `rfl` in the kernel.

Rust code that can panic (the `unwrap` calls and raw indexing inside
`str_to_udp`) is embedded with an explicit `PResult.panic` outcome,
distinct from the recoverable `PResult.err` carrying a `ParserError`.
-/

/-- Embedding of the `ParserError` enum of the source.  The payloads of
`Ipnet(ipnet::AddrParseError)` and `Net(net::AddrParseError)` are opaque
in the source (their contents are never inspected), so they carry no data
here; the other constructors carry exactly what the source stores. -/
inductive ParserErrorT : Type where
  | Ipnet : ParserErrorT
  | Net : ParserErrorT
  | MissingToken : String → ParserErrorT
  | Other : String → ParserErrorT
  | BadFormat : ParserErrorT
  | InvalidLine : String → ParserErrorT → ParserErrorT
deriving DecidableEq

/-- Outcome of running a fragment of the Rust code: a normal value, a
recoverable error (Rust `Err` carrying a `ParserErrorT`), or a panic
(Rust `panic!` / failed `unwrap` / out-of-bounds indexing). -/
inductive PResult (α : Type) where
  | ok : α → PResult α
  | err : ParserErrorT → PResult α
  | panic : PResult α
deriving DecidableEq

/-- `c.is_ascii_digit()`. -/
def isDigitChar (c : Char) : Bool := '0' ≤ c && c ≤ '9'

/-- Numeric value of a decimal digit string (big-endian fold). -/
def digitsToNat (cs : List Char) : Nat :=
  cs.foldl (fun acc c => acc * 10 + (c.toNat - 48)) 0

/-- Split a character list at every occurrence of `sep`, keeping empty
pieces — the semantics of Rust's `str::split(sep)` (and of
`String.splitOn` for a one-character separator). -/
def splitOnChar (sep : Char) : List Char → List (List Char)
  | [] => [[]]
  | c :: cs =>
    let r := splitOnChar sep cs
    if c = sep then [] :: r
    else
      match r with
      | [] => [[c]]
      | g :: gs => (c :: g) :: gs

/-- `splitOnChar`, packaged on `String`. -/
def splitStr (sep : Char) (s : String) : List String :=
  (splitOnChar sep s.toList).map (fun cs => ⟨cs⟩)

/-- Split at every character satisfying `p`, keeping empty pieces. -/
def splitByPred (p : Char → Bool) : List Char → List (List Char)
  | [] => [[]]
  | c :: cs =>
    let r := splitByPred p cs
    if p c then [] :: r
    else
      match r with
      | [] => [[c]]
      | g :: gs => (c :: g) :: gs

/-- Parse one dotted-quad octet the way Rust's `Ipv4Addr` parser does:
one or more decimal digits, no sign, no leading zero (unless the octet is
exactly `0`), value at most 255. -/
def parseOctet (s : String) : Option Nat :=
  let cs := s.toList
  if cs.isEmpty then none
  else if !cs.all isDigitChar then none
  else if cs.length > 1 && cs.headD '0' = '0' then none
  else
    let v := digitsToNat cs
    if v ≤ 255 then some v else none

/-- Embedding of `std::net::Ipv4Addr`: four octets. -/
structure Ipv4Addr where
  o1 : Nat
  o2 : Nat
  o3 : Nat
  o4 : Nat
deriving DecidableEq

/-- `"a.b.c.d".parse::<Ipv4Addr>()`: exactly four octets separated by
dots, each as in `parseOctet`. `none` models `Err(net::AddrParseError)`. -/
def parse_ipv4 (s : String) : Option Ipv4Addr :=
  match (splitStr '.' s).mapM parseOctet with
  | some [a, b, c, d] => some ⟨a, b, c, d⟩
  | _ => none

/-- Rust `FromStr` for an unsigned integer bounded by `max` (`u16` with
`max = 65535`, `u8` with `max = 255`): an optional leading `+`, then one
or more decimal digits (leading zeros allowed), rejecting overflow. -/
def parseUInt (max : Nat) (s : String) : Option Nat :=
  let cs0 := s.toList
  let cs := if cs0.headD ' ' = '+' then cs0.tail else cs0
  if cs.isEmpty then none
  else if !cs.all isDigitChar then none
  else
    let v := digitsToNat cs
    if v ≤ max then some v else none

/-- Embedding of `ipnet::Ipv4Net`: the address exactly as written (ipnet
stores it unmasked; `.addr()` returns it unchanged) plus the length. -/
structure Ipv4Net where
  addr : Ipv4Addr
  len : Nat
deriving DecidableEq

/-- `"a.b.c.d/n".parse::<Ipv4Net>()` (ipnet): split at the first `/`,
parse the address part as `Ipv4Addr`, the remainder as `u8`, and require
the length to be at most 32.  `none` models `Err(ipnet::AddrParseError)`. -/
def parse_ipv4net (s : String) : Option Ipv4Net :=
  match splitStr '/' s with
  | [] => none
  | [_] => none
  | addrStr :: restPieces =>
    match parse_ipv4 addrStr, parseUInt 255 (String.intercalate "/" restPieces) with
    | some a, some l => if l ≤ 32 then some ⟨a, l⟩ else none
    | _, _ => none

/-- `Display` of `Ipv4Addr` (`"{a}.{b}.{c}.{d}"`), used by the
`No neighbor with address {addr}` message. -/
def Ipv4Addr.display (a : Ipv4Addr) : String :=
  Nat.repr a.o1 ++ "." ++ Nat.repr a.o2 ++ "." ++ Nat.repr a.o3 ++ "." ++ Nat.repr a.o4

/-- Embedding of `str_to_udp` (source lines 53–59):
`input.split(':')`, then `tokens[0].parse::<Ipv4Addr>().unwrap()` and
`tokens[1].parse::<u16>().unwrap()`.  Every failure path — fewer than two
pieces (out-of-bounds index) or either `parse` failing (`unwrap` on
`Err`) — is a panic, never a returned error. -/
def str_to_udp (input : String) : PResult (Ipv4Addr × Nat) :=
  match splitStr ':' input with
  | t0 :: t1 :: _ =>
    match parse_ipv4 t0, parseUInt 65535 t1 with
    | some a, some p => .ok (a, p)
    | _, _ => .panic
  | _ => .panic

/-- Embedding of the `RoutingType` enum. -/
inductive RoutingType where
  | None : RoutingType
  | Static : RoutingType
  | Rip : RoutingType
deriving DecidableEq

/-- `RoutingType::try_from(&str)` (source lines 74–85). -/
def RoutingType.try_from (value : String) : PResult RoutingType :=
  if value = "none" then .ok .None
  else if value = "static" then .ok .Static
  else if value = "rip" then .ok .Rip
  else .err (.Other ("Invalid routing type: " ++ value))

/-- Embedding of the `InterfaceConfig` struct.  The source field
`assigned_prefix` is named `assigned_net` here; it stores the CIDR
network exactly as parsed. -/
structure InterfaceConfig where
  name : String
  assigned_net : Ipv4Net
  assigned_ip : Ipv4Addr
  udp_addr : Ipv4Addr
  udp_port : Nat
deriving DecidableEq

/-- `InterfaceConfig::try_from(Vec<&str>)` (source lines 97–119):
arity check first, then `tokens[2].parse::<Ipv4Net>()?` and
`str_to_udp(tokens[3])`; `assigned_ip` is `assigned_prefix.addr()`. -/
def InterfaceConfig.try_from (tokens : List String) : PResult InterfaceConfig :=
  if tokens.length ≠ 4 then .err .BadFormat
  else
    let name := tokens.getD 1 ""
    match parse_ipv4net (tokens.getD 2 "") with
    | none => .err .Ipnet
    | some net =>
      match str_to_udp (tokens.getD 3 "") with
      | .ok (ua, up) => .ok ⟨name, net, net.addr, ua, up⟩
      | .err e => .err e
      | .panic => .panic

/-- Embedding of the `NeighborConfig` struct. -/
structure NeighborConfig where
  dest_addr : Ipv4Addr
  udp_addr : Ipv4Addr
  udp_port : Nat
  interface_name : String
deriving DecidableEq

/-- `NeighborConfig::try_from(Vec<&str>)` (source lines 129–155): arity
check, `tokens[1].parse::<Ipv4Addr>()?`, the `"at"` keyword check,
`str_to_udp(tokens[3])`, the `"via"` keyword check — in that order. -/
def NeighborConfig.try_from (tokens : List String) : PResult NeighborConfig :=
  if tokens.length ≠ 6 then .err .BadFormat
  else
    match parse_ipv4 (tokens.getD 1 "") with
    | none => .err .Net
    | some dest =>
      if tokens.getD 2 "" ≠ "at" then .err (.MissingToken "at")
      else
        match str_to_udp (tokens.getD 3 "") with
        | .ok (ua, up) =>
          if tokens.getD 4 "" ≠ "via" then .err (.MissingToken "via")
          else .ok ⟨dest, ua, up, tokens.getD 5 ""⟩
        | .err e => .err e
        | .panic => .panic

/-- Embedding of the `IPConfig` aggregate (source lines 160–171). -/
structure IPConfig where
  interfaces : List InterfaceConfig
  neighbors : List NeighborConfig
  routing_mode : RoutingType
  rip_neighbors : Option (List Ipv4Addr)
  static_routes : List (Ipv4Net × Ipv4Addr)
deriving DecidableEq

/-- `IPConfig::default()`: all sequences empty, `routing_mode = None`,
`rip_neighbors = None`. -/
def IPConfig.default : IPConfig := ⟨[], [], .None, none, []⟩

/-- `c.is_ascii_whitespace()`: space, tab (9), line feed (10), form feed
(12), carriage return (13). -/
def isAsciiWhitespace (c : Char) : Bool :=
  c == ' ' || c == Char.ofNat 9 || c == Char.ofNat 10 || c == Char.ofNat 12 || c == Char.ofNat 13

/-- `line.split_ascii_whitespace().collect::<Vec<&str>>()`: split on
ASCII whitespace and drop the empty pieces that runs of whitespace
produce. -/
def rawTokens (line : String) : List String :=
  ((splitByPred isAsciiWhitespace line.toList).map (fun cs => (⟨cs⟩ : String))).filter
    (fun t => t ≠ "")

/-- The tokenization step of `parse_line` (source lines 218–226): raw
ASCII-whitespace tokens, truncated at the position of the first token
equal to `#` (`tokens.truncate(tokens.iter().position(|&x| x == "#").unwrap_or(tokens.len()))`). -/
def tokenize (line : String) : List String :=
  let tokens := rawTokens line
  tokens.take ((tokens.findIdx? (fun t => t == "#")).getD tokens.length)

/-- `IPConfig::parse_routing` (source lines 252–259).  The state is
threaded explicitly: the Rust `&mut self` methods become functions
returning the updated `IPConfig` next to the `Result`. -/
def IPConfig.parse_routing (s : IPConfig) (tokens : List String) :
    IPConfig × PResult Unit :=
  if tokens.length ≠ 2 then (s, .err .BadFormat)
  else
    match RoutingType.try_from (tokens.getD 1 "") with
    | .ok t => ({ s with routing_mode := t }, .ok ())
    | .err e => (s, .err e)
    | .panic => (s, .panic)

/-- `IPConfig::parse_route` (source lines 263–276). -/
def IPConfig.parse_route (s : IPConfig) (tokens : List String) :
    IPConfig × PResult Unit :=
  if tokens.length ≠ 4 then (s, .err .BadFormat)
  else
    match parse_ipv4net (tokens.getD 1 "") with
    | none => (s, .err .Ipnet)
    | some net =>
      if tokens.getD 2 "" ≠ "via" then (s, .err (.MissingToken "via"))
      else
        match parse_ipv4 (tokens.getD 3 "") with
        | none => (s, .err .Net)
        | some a => ({ s with static_routes := s.static_routes ++ [(net, a)] }, .ok ())

/-- `IPConfig::parse_rip` (source lines 280–312): arity check, the
`advertise-to` command check (an `Other` error on mismatch), address
parse, then a linear scan of the accumulated neighbors; on a hit the
matching neighbor's `dest_addr` is pushed onto `rip_neighbors` (the
vector is created if it was `None`), on a miss an `Other` error. -/
def IPConfig.parse_rip (s : IPConfig) (tokens : List String) :
    IPConfig × PResult Unit :=
  if tokens.length ≠ 3 then (s, .err .BadFormat)
  else
    if tokens.getD 1 "" ≠ "advertise-to" then
      (s, .err (.Other ("Invalid command: " ++ tokens.getD 1 "")))
    else
      match parse_ipv4 (tokens.getD 2 "") with
      | none => (s, .err .Net)
      | some addr =>
        match s.neighbors.find? (fun n => n.dest_addr == addr) with
        | some n =>
          match s.rip_neighbors with
          | some rn => ({ s with rip_neighbors := some (rn ++ [n.dest_addr]) }, .ok ())
          | none => ({ s with rip_neighbors := some [n.dest_addr] }, .ok ())
        | none =>
          (s, .err (.Other ("No neighbor with address " ++ Ipv4Addr.display addr)))

/-- The directive dispatch of `parse_line` (source lines 228–247), on an
already-tokenized line: empty token list is a no-op, otherwise the first
token selects the directive parser, an unknown first token is an
`Other` error. -/
def IPConfig.dispatch (s : IPConfig) : List String → IPConfig × PResult Unit
  | [] => (s, .ok ())
  | directive :: restTokens =>
    if directive = "interface" then
      match InterfaceConfig.try_from (directive :: restTokens) with
      | .ok c => ({ s with interfaces := s.interfaces ++ [c] }, .ok ())
      | .err e => (s, .err e)
      | .panic => (s, .panic)
    else if directive = "neighbor" then
      match NeighborConfig.try_from (directive :: restTokens) with
      | .ok c => ({ s with neighbors := s.neighbors ++ [c] }, .ok ())
      | .err e => (s, .err e)
      | .panic => (s, .panic)
    else if directive = "routing" then s.parse_routing (directive :: restTokens)
    else if directive = "route" then s.parse_route (directive :: restTokens)
    else if directive = "rip" then s.parse_rip (directive :: restTokens)
    else (s, .err (.Other ("Invalid directive: " ++ directive)))

/-- `IPConfig::parse_line` (source lines 217–248): tokenize, strip the
comment tail, dispatch. -/
def IPConfig.parse_line (s : IPConfig) (line : String) : IPConfig × PResult Unit :=
  IPConfig.dispatch s (tokenize line)

/-- The loop body of `IPConfig::parse` (source lines 206–214) over an
explicit list of lines.  Faithfully includes the source's arm that
treats an `InvalidLine` error from `parse_line` like success (dead in
practice, since `parse_line` never returns one); any other error is
wrapped as `InvalidLine(line, e)` and returned at once; a panic
propagates. -/
def IPConfig.parseLines : IPConfig → List String → IPConfig × PResult Unit
  | s, [] => (s, .ok ())
  | s, l :: ls =>
    match IPConfig.parse_line s l with
    | (s', .ok ()) => IPConfig.parseLines s' ls
    | (s', .err (.InvalidLine _ _)) => IPConfig.parseLines s' ls
    | (s', .err e) => (s', .err (.InvalidLine l e))
    | (s', .panic) => (s', .panic)

/-- Strip one trailing carriage return, as `str::lines` does for pieces
terminated by `\n`. -/
def stripTrailingCR (l : String) : String :=
  match l.toList.reverse with
  | c :: cs => if c = Char.ofNat 13 then ⟨cs.reverse⟩ else l
  | [] => l

/-- Rust `config.lines()`: split at `\n`, dropping a final empty piece
(the optional trailing newline) and stripping a `\r` from every piece
that was terminated by `\n`. -/
def rustLines (s : String) : List String :=
  let ps := splitStr (Char.ofNat 10) s
  (ps.dropLast.map stripTrailingCR) ++
    (if ps.getLastD "" = "" then [] else [ps.getLastD ""])

/-- `IPConfig::parse` (source lines 206–214). -/
def IPConfig.parse (s : IPConfig) (config : String) : IPConfig × PResult Unit :=
  IPConfig.parseLines s (rustLines config)

/-- `IPConfig::try_new` (source lines 187–200).  `fs::read_to_string` is
external to the repository, so the file system is passed as a parameter
`fs : String → Except String String` mapping a path to either the file
content or the debug rendering of the `io::Error`; on a read failure the
source builds `ParserError::Other("Error reading file: {e:?}")` and
returns it without parsing anything. -/
def IPConfig.try_new (fs : String → Except String String) (file_path : String) :
    PResult IPConfig :=
  match fs file_path with
  | .error e => .err (.Other ("Error reading file: " ++ e))
  | .ok file_content =>
    match IPConfig.parse IPConfig.default file_content with
    | (s, .ok ()) => .ok s
    | (_, .err e) => .err e
    | (_, .panic) => .panic

example : parse_ipv4 "192.168.1.1" = some ⟨192, 168, 1, 1⟩ := by decide
example : parse_ipv4 "192.168.01.1" = none := by decide
example : parse_ipv4 "1.2.3" = none := by decide
example : parse_ipv4 "1.2.3.256" = none := by decide
example : parse_ipv4net "192.168.1.1/24" = some ⟨⟨192, 168, 1, 1⟩, 24⟩ := by decide
example : parse_ipv4net "192.168.1.1/33" = none := by decide
example : parse_ipv4net "192.168.1.1" = none := by decide
example : str_to_udp "10.0.0.1:9000" = .ok (⟨10, 0, 0, 1⟩, 9000) := by decide
example : str_to_udp "10.0.0.1" = .panic := by decide
example : str_to_udp "10.0.0.1:99999" = .panic := by decide
example : Ipv4Addr.display ⟨192, 168, 1, 2⟩ = "192.168.1.2" := by decide
example : tokenize "  a \t b#c # d e" = ["a", "b#c"] := by decide
example : tokenize "# only a comment" = [] := by decide
example :
    IPConfig.parse_line IPConfig.default "interface eth0 192.168.1.1/24 10.0.0.1:9000" =
      ({ IPConfig.default with
          interfaces := [⟨"eth0", ⟨⟨192, 168, 1, 1⟩, 24⟩, ⟨192, 168, 1, 1⟩, ⟨10, 0, 0, 1⟩, 9000⟩] },
        .ok ()) := by decide
example :
    IPConfig.parse_line IPConfig.default "neighbor 192.168.1.2 at 10.0.0.2:9001 via eth1" =
      ({ IPConfig.default with
          neighbors := [⟨⟨192, 168, 1, 2⟩, ⟨10, 0, 0, 2⟩, 9001, "eth1"⟩] },
        .ok ()) := by decide
example :
    IPConfig.parse_line IPConfig.default "bogus x" =
      (IPConfig.default, .err (.Other "Invalid directive: bogus")) := by decide
example : rustLines "a\r\nb\n\nc" = ["a", "b", "", "c"] := by decide
example : rustLines "" = [] := by decide
example :
    (IPConfig.parse IPConfig.default "routing static\nbogus").2 =
      .err (.InvalidLine "bogus" (.Other "Invalid directive: bogus")) := by decide

/-! ## Helper lemmas on the shapes of errors and states -/

/-- `str_to_udp` never returns a recoverable error: it succeeds or panics. -/
lemma str_to_udp_no_err (input : String) (e : ParserErrorT) :
    str_to_udp input ≠ .err e := by
  unfold str_to_udp
  intro h
  split at h
  · split at h <;> exact PResult.noConfusion h
  · exact PResult.noConfusion h

/-- Every recoverable error out of `InterfaceConfig::try_from` is
`BadFormat` or `Ipnet`; in particular it is never an `InvalidLine`. -/
lemma interface_try_from_err (ts : List String) (e : ParserErrorT)
    (h : InterfaceConfig.try_from ts = .err e) :
    e = .BadFormat ∨ e = .Ipnet := by
  unfold InterfaceConfig.try_from at h
  split at h
  · exact Or.inl (PResult.err.inj h).symm
  · split at h
    · exact Or.inr (PResult.err.inj h).symm
    · rename_i net
      split at h
      · exact PResult.noConfusion h
      · rename_i e0 heq
        exact absurd heq (str_to_udp_no_err _ _)
      · exact PResult.noConfusion h

/-- Every recoverable error out of `NeighborConfig::try_from` is
`BadFormat`, `Net`, or a `MissingToken`. -/
lemma neighbor_try_from_err (ts : List String) (e : ParserErrorT)
    (h : NeighborConfig.try_from ts = .err e) :
    e = .BadFormat ∨ e = .Net ∨ e = .MissingToken "at" ∨ e = .MissingToken "via" := by
  unfold NeighborConfig.try_from at h
  split at h
  · exact Or.inl (PResult.err.inj h).symm
  · split at h
    · exact Or.inr (Or.inl (PResult.err.inj h).symm)
    · split at h
      · exact Or.inr (Or.inr (Or.inl (PResult.err.inj h).symm))
      · split at h
        · split at h
          · exact Or.inr (Or.inr (Or.inr (PResult.err.inj h).symm))
          · exact PResult.noConfusion h
        · rename_i e0 heq
          exact absurd heq (str_to_udp_no_err _ _)
        · exact PResult.noConfusion h

/-- `parse_routing`: on a recoverable error the state is unchanged and
the error is `BadFormat` or an `Other`. -/
lemma IPConfig.parse_routing_err (s : IPConfig) (ts : List String)
    (s' : IPConfig) (e : ParserErrorT)
    (h : IPConfig.parse_routing s ts = (s', .err e)) :
    s' = s ∧ (e = .BadFormat ∨ ∃ m, e = .Other m) := by
  unfold IPConfig.parse_routing at h
  split at h
  · obtain ⟨h1, h2⟩ := Prod.mk.injEq .. ▸ h
    exact ⟨h1.symm ▸ rfl, Or.inl (PResult.err.inj h2).symm⟩
  · split at h
    · exact absurd (congrArg Prod.snd h) (by simp)
    · rename_i e0 heq
      obtain ⟨h1, h2⟩ := Prod.mk.injEq .. ▸ h
      refine ⟨h1.symm ▸ rfl, ?_⟩
      have he : e0 = e := PResult.err.inj h2
      unfold RoutingType.try_from at heq
      split at heq
      · exact PResult.noConfusion heq
      · split at heq
        · exact PResult.noConfusion heq
        · split at heq
          · exact PResult.noConfusion heq
          · exact Or.inr ⟨_, he ▸ (PResult.err.inj heq).symm⟩
    · rename_i heq
      have : RoutingType.try_from (ts.getD 1 "") ≠ .panic := by
        unfold RoutingType.try_from
        split
        · exact fun hc => PResult.noConfusion hc
        · split
          · exact fun hc => PResult.noConfusion hc
          · split
            · exact fun hc => PResult.noConfusion hc
            · exact fun hc => PResult.noConfusion hc
      exact absurd heq this


/-- `parse_route`: on a recoverable error the state is unchanged and the
error is `BadFormat`, `Ipnet`, `MissingToken "via"`, or `Net`. -/
lemma IPConfig.parse_route_err (s : IPConfig) (ts : List String)
    (s' : IPConfig) (e : ParserErrorT)
    (h : IPConfig.parse_route s ts = (s', .err e)) :
    s' = s ∧ (e = .BadFormat ∨ e = .Ipnet ∨ e = .MissingToken "via" ∨ e = .Net) := by
  unfold IPConfig.parse_route at h
  split at h
  all_goals try split at h
  all_goals try split at h
  all_goals try split at h
  all_goals simp_all

/-- `parse_rip`: on a recoverable error the state is unchanged and the
error is `BadFormat`, an `Other`, or `Net`. -/
lemma IPConfig.parse_rip_err (s : IPConfig) (ts : List String)
    (s' : IPConfig) (e : ParserErrorT)
    (h : IPConfig.parse_rip s ts = (s', .err e)) :
    s' = s ∧ (e = .BadFormat ∨ (∃ m, e = .Other m) ∨ e = .Net) := by
  unfold IPConfig.parse_rip at h
  split at h
  all_goals try split at h
  all_goals try split at h
  all_goals try split at h
  all_goals try split at h
  all_goals simp_all
  all_goals exact Or.inr (Or.inl ⟨_, h.2.symm⟩)

/-- `dispatch`: on a recoverable error the state is unchanged and the
error is never an `InvalidLine` (it comes from one of the field parsers
or from the unknown-directive arm, none of which build one). -/
lemma IPConfig.dispatch_err (s : IPConfig) (ts : List String)
    (s' : IPConfig) (e : ParserErrorT)
    (h : IPConfig.dispatch s ts = (s', .err e)) :
    s' = s ∧ ∀ a b, e ≠ .InvalidLine a b := by
  match ts with
  | [] =>
    simp only [IPConfig.dispatch] at h
    exact absurd (congrArg Prod.snd h) (by simp)
  | d :: ds =>
    simp only [IPConfig.dispatch] at h
    by_cases h1 : d = "interface"
    · rw [if_pos h1] at h
      split at h
      · exact absurd (congrArg Prod.snd h) (by simp)
      · rename_i e0 heq
        obtain ⟨hs, he⟩ := Prod.mk.injEq .. ▸ h
        refine ⟨hs.symm, ?_⟩
        rcases interface_try_from_err _ _ ((PResult.err.inj he) ▸ heq) with rfl | rfl <;>
          simp
      · exact absurd (congrArg Prod.snd h) (by simp)
    · rw [if_neg h1] at h
      by_cases h2 : d = "neighbor"
      · rw [if_pos h2] at h
        split at h
        · exact absurd (congrArg Prod.snd h) (by simp)
        · rename_i e0 heq
          obtain ⟨hs, he⟩ := Prod.mk.injEq .. ▸ h
          refine ⟨hs.symm, ?_⟩
          rcases neighbor_try_from_err _ _ ((PResult.err.inj he) ▸ heq) with
            rfl | rfl | rfl | rfl <;> simp
        · exact absurd (congrArg Prod.snd h) (by simp)
      · rw [if_neg h2] at h
        by_cases h3 : d = "routing"
        · rw [if_pos h3] at h
          obtain ⟨hs, hsh⟩ := IPConfig.parse_routing_err _ _ _ _ h
          refine ⟨hs, ?_⟩
          rcases hsh with rfl | ⟨m, rfl⟩ <;> simp
        · rw [if_neg h3] at h
          by_cases h4 : d = "route"
          · rw [if_pos h4] at h
            obtain ⟨hs, hsh⟩ := IPConfig.parse_route_err _ _ _ _ h
            refine ⟨hs, ?_⟩
            rcases hsh with rfl | rfl | rfl | rfl <;> simp
          · rw [if_neg h4] at h
            by_cases h5 : d = "rip"
            · rw [if_pos h5] at h
              obtain ⟨hs, hsh⟩ := IPConfig.parse_rip_err _ _ _ _ h
              refine ⟨hs, ?_⟩
              rcases hsh with rfl | ⟨m, rfl⟩ | rfl <;> simp
            · rw [if_neg h5] at h
              obtain ⟨hs, he⟩ := Prod.mk.injEq .. ▸ h
              refine ⟨hs.symm, ?_⟩
              rw [← PResult.err.inj he]
              simp

/-- `parse_line`: on a recoverable error the state is unchanged and the
error is never an `InvalidLine`. -/
lemma IPConfig.parse_line_err (s : IPConfig) (line : String)
    (s' : IPConfig) (e : ParserErrorT)
    (h : IPConfig.parse_line s line = (s', .err e)) :
    s' = s ∧ ∀ a b, e ≠ .InvalidLine a b :=
  IPConfig.dispatch_err s (tokenize line) s' e h

/-- One step of the parse loop when the line succeeds. -/
lemma IPConfig.parseLines_cons_ok (s s1 : IPConfig) (l : String) (ls : List String)
    (hd : IPConfig.parse_line s l = (s1, .ok ())) :
    IPConfig.parseLines s (l :: ls) = IPConfig.parseLines s1 ls := by
  simp only [IPConfig.parseLines]
  rw [hd]

/-- One step of the parse loop when the line fails with a (necessarily
non-`InvalidLine`) recoverable error: the loop stops, wrapping the error
with the line. -/
lemma IPConfig.parseLines_cons_err (s s1 : IPConfig) (l : String) (ls : List String)
    (e1 : ParserErrorT) (hd : IPConfig.parse_line s l = (s1, .err e1))
    (hnot : ∀ a b, e1 ≠ .InvalidLine a b) :
    IPConfig.parseLines s (l :: ls) = (s1, .err (.InvalidLine l e1)) := by
  simp only [IPConfig.parseLines]
  rw [hd]
  cases e1
  case InvalidLine a b => exact absurd rfl (hnot a b)
  all_goals rfl

/-- One step of the parse loop when the line panics. -/
lemma IPConfig.parseLines_cons_panic (s s1 : IPConfig) (l : String) (ls : List String)
    (hd : IPConfig.parse_line s l = (s1, .panic)) :
    IPConfig.parseLines s (l :: ls) = (s1, .panic) := by
  simp only [IPConfig.parseLines]
  rw [hd]

/-- C1.  `parse` processes lines strictly in order: if all lines of
`done` succeed, taking the state from `s` to `s'`, and `parse_line`
fails on `lbad` with recoverable error `e`, then parsing
`done ++ lbad :: later` stops exactly there, returning `e` wrapped in
`InvalidLine` together with the original text of the failing line —
whatever the later lines are, so no later line is processed. -/
theorem parse_first_failure_stops (s : IPConfig) (done : List String)
    (lbad : String) (later : List String) (s' s'' : IPConfig) (e : ParserErrorT)
    (hdone : IPConfig.parseLines s done = (s', .ok ()))
    (hbad : IPConfig.parse_line s' lbad = (s'', .err e)) :
    IPConfig.parseLines s (done ++ lbad :: later) = (s'', .err (.InvalidLine lbad e)) := by
  induction done generalizing s with
  | nil =>
    simp only [IPConfig.parseLines] at hdone
    obtain ⟨hs, -⟩ := Prod.mk.injEq .. ▸ hdone
    subst hs
    simp only [List.nil_append]
    obtain ⟨-, hnot⟩ := IPConfig.parse_line_err _ _ _ _ hbad
    exact IPConfig.parseLines_cons_err _ _ _ _ _ hbad hnot
  | cons d ds ih =>
    rcases hd : IPConfig.parse_line s d with ⟨s1, r⟩
    match r with
    | .ok u =>
      cases u
      rw [List.cons_append, IPConfig.parseLines_cons_ok s s1 d _ hd]
      rw [IPConfig.parseLines_cons_ok s s1 d ds hd] at hdone
      exact ih s1 hdone
    | .err e1 =>
      obtain ⟨-, hnot1⟩ := IPConfig.parse_line_err _ _ _ _ hd
      rw [IPConfig.parseLines_cons_err s s1 d ds e1 hd hnot1] at hdone
      exact absurd (congrArg Prod.snd hdone) (by simp)
    | .panic =>
      rw [IPConfig.parseLines_cons_panic s s1 d ds hd] at hdone
      exact absurd (congrArg Prod.snd hdone) (by simp)

/-- Witness for `parse_first_failure_stops`: two good lines, a bad line,
and a later line that is ignored. -/
theorem parse_first_failure_stops_witness :
    IPConfig.parseLines IPConfig.default
        ["routing static", "rip advertise 1.2.3.4", "interface x"] =
      ({ IPConfig.default with routing_mode := .Static },
        .err (.InvalidLine "rip advertise 1.2.3.4" (.Other "Invalid command: advertise"))) :=
  parse_first_failure_stops IPConfig.default ["routing static"]
    "rip advertise 1.2.3.4" ["interface x"]
    { IPConfig.default with routing_mode := .Static }
    { IPConfig.default with routing_mode := .Static }
    (.Other "Invalid command: advertise") (by decide) (by decide)

/-- Inversion of the parse loop on a recoverable error: the input splits
as successfully parsed lines `done` (whose mutations are all retained in
the returned state), the failing line, and unprocessed later lines. -/
lemma IPConfig.parseLines_err_inv (ls : List String) (s s' : IPConfig) (e : ParserErrorT)
    (h : IPConfig.parseLines s ls = (s', .err e)) :
    ∃ done lbad later e0, ls = done ++ lbad :: later ∧
      IPConfig.parseLines s done = (s', .ok ()) ∧
      IPConfig.parse_line s' lbad = (s', .err e0) ∧ e = .InvalidLine lbad e0 := by
  induction ls generalizing s with
  | nil =>
    simp only [IPConfig.parseLines] at h
    exact absurd (congrArg Prod.snd h) (by simp)
  | cons l ls ih =>
    rcases hd : IPConfig.parse_line s l with ⟨s1, r⟩
    match r with
    | .ok u =>
      cases u
      rw [IPConfig.parseLines_cons_ok s s1 l ls hd] at h
      obtain ⟨done, lbad, later, e0, hsplit, hok, hbadline, herr⟩ := ih s1 h
      refine ⟨l :: done, lbad, later, e0, by rw [hsplit, List.cons_append], ?_, hbadline, herr⟩
      rw [IPConfig.parseLines_cons_ok s s1 l done hd]
      exact hok
    | .err e1 =>
      obtain ⟨hs1, hnot⟩ := IPConfig.parse_line_err _ _ _ _ hd
      rw [IPConfig.parseLines_cons_err s s1 l ls e1 hd hnot] at h
      obtain ⟨hseq, herr⟩ := Prod.mk.injEq .. ▸ h
      have hss : s = s' := hs1 ▸ hseq
      subst hss
      refine ⟨[], l, ls, e1, rfl, by simp only [IPConfig.parseLines], ?_,
        (PResult.err.inj herr).symm⟩
      rw [hd, hs1]
    | .panic =>
      rw [IPConfig.parseLines_cons_panic s s1 l ls hd] at h
      exact absurd (congrArg Prod.snd h) (by simp)

/-- C10.  A failing `parse` on an existing aggregate rolls nothing back:
the returned state is exactly the state after all lines before the
failing one were applied, so a caller of `parse` observes the partially
populated configuration.  The concrete conjuncts show a caller keeping
the interface appended by the line before the failure. -/
theorem parse_keeps_earlier_mutations :
    (∀ (s : IPConfig) (text : String) (s' : IPConfig) (e : ParserErrorT),
      IPConfig.parse s text = (s', .err e) →
      ∃ done lbad later e0, rustLines text = done ++ lbad :: later ∧
        IPConfig.parseLines s done = (s', .ok ()) ∧
        IPConfig.parse_line s' lbad = (s', .err e0) ∧ e = .InvalidLine lbad e0) ∧
    (IPConfig.parse IPConfig.default
        "interface eth0 192.168.1.1/24 10.0.0.1:9000\nbogus").1 =
      { IPConfig.default with
          interfaces :=
            [⟨"eth0", ⟨⟨192, 168, 1, 1⟩, 24⟩, ⟨192, 168, 1, 1⟩, ⟨10, 0, 0, 1⟩, 9000⟩] } ∧
    (IPConfig.parse IPConfig.default
        "interface eth0 192.168.1.1/24 10.0.0.1:9000\nbogus").2 =
      .err (.InvalidLine "bogus" (.Other "Invalid directive: bogus")) :=
  ⟨fun s text s' e h => IPConfig.parseLines_err_inv (rustLines text) s s' e h,
    by decide, by decide⟩

/-- Witness for `parse_keeps_earlier_mutations`: a state mutated by a
successful `routing` line survives the failure of the next line. -/
theorem parse_keeps_earlier_mutations_witness :
    ∃ done lbad later e0,
      rustLines "routing static\nbogus" = done ++ lbad :: later ∧
      IPConfig.parseLines IPConfig.default done =
        ({ IPConfig.default with routing_mode := .Static }, .ok ()) ∧
      IPConfig.parse_line { IPConfig.default with routing_mode := .Static } lbad =
        ({ IPConfig.default with routing_mode := .Static }, .err e0) ∧
      ParserErrorT.InvalidLine "bogus" (.Other "Invalid directive: bogus") =
        .InvalidLine lbad e0 :=
  parse_keeps_earlier_mutations.1 IPConfig.default "routing static\nbogus"
    { IPConfig.default with routing_mode := .Static }
    (.InvalidLine "bogus" (.Other "Invalid directive: bogus")) (by decide)

/-! ## Reduced forms of the directive parsers on token lists of the
right arity (all definitional) -/

lemma InterfaceConfig.try_from_four (t0 t1 t2 t3 : String) :
    InterfaceConfig.try_from [t0, t1, t2, t3] =
      (match parse_ipv4net t2 with
       | none => .err .Ipnet
       | some net =>
         match str_to_udp t3 with
         | .ok (ua, up) => .ok ⟨t1, net, net.addr, ua, up⟩
         | .err e => .err e
         | .panic => .panic) := rfl

lemma NeighborConfig.try_from_six (t0 t1 t2 t3 t4 t5 : String) :
    NeighborConfig.try_from [t0, t1, t2, t3, t4, t5] =
      (match parse_ipv4 t1 with
       | none => .err .Net
       | some dest =>
         if t2 ≠ "at" then .err (.MissingToken "at")
         else
           match str_to_udp t3 with
           | .ok (ua, up) =>
             if t4 ≠ "via" then .err (.MissingToken "via")
             else .ok ⟨dest, ua, up, t5⟩
           | .err e => .err e
           | .panic => .panic) := rfl

lemma IPConfig.parse_routing_two (s : IPConfig) (t0 t1 : String) :
    IPConfig.parse_routing s [t0, t1] =
      (match RoutingType.try_from t1 with
       | .ok t => ({ s with routing_mode := t }, .ok ())
       | .err e => (s, .err e)
       | .panic => (s, .panic)) := rfl

lemma IPConfig.parse_route_four (s : IPConfig) (t0 t1 t2 t3 : String) :
    IPConfig.parse_route s [t0, t1, t2, t3] =
      (match parse_ipv4net t1 with
       | none => (s, .err .Ipnet)
       | some net =>
         if t2 ≠ "via" then (s, .err (.MissingToken "via"))
         else
           match parse_ipv4 t3 with
           | none => (s, .err .Net)
           | some a =>
             ({ s with static_routes := s.static_routes ++ [(net, a)] }, .ok ())) := rfl

lemma IPConfig.parse_rip_three (s : IPConfig) (t0 t1 t2 : String) :
    IPConfig.parse_rip s [t0, t1, t2] =
      (if t1 ≠ "advertise-to" then (s, .err (.Other ("Invalid command: " ++ t1)))
       else
         match parse_ipv4 t2 with
         | none => (s, .err .Net)
         | some addr =>
           match s.neighbors.find? (fun n => n.dest_addr == addr) with
           | some n =>
             match s.rip_neighbors with
             | some rn => ({ s with rip_neighbors := some (rn ++ [n.dest_addr]) }, .ok ())
             | none => ({ s with rip_neighbors := some [n.dest_addr] }, .ok ())
           | none =>
             (s, .err (.Other ("No neighbor with address " ++ addr.display)))) := rfl

/-- C3.  A `rip advertise-to <addr>` line succeeds — appending `<addr>`
to `rip_neighbors`, creating the sequence if it was `None` — exactly
when some accumulated neighbor has `dest_addr = <addr>`; otherwise it
fails with the "no neighbor" error and the whole aggregate, in
particular `rip_neighbors`, is untouched. -/
theorem rip_advertise_requires_neighbor (s : IPConfig) (addrStr : String) (a : Ipv4Addr)
    (h : parse_ipv4 addrStr = some a) :
    ((∃ n ∈ s.neighbors, n.dest_addr = a) →
      IPConfig.parse_rip s ["rip", "advertise-to", addrStr] =
        ({ s with rip_neighbors := some ((s.rip_neighbors.getD []) ++ [a]) }, .ok ())) ∧
    ((∀ n ∈ s.neighbors, n.dest_addr ≠ a) →
      IPConfig.parse_rip s ["rip", "advertise-to", addrStr] =
        (s, .err (.Other ("No neighbor with address " ++ a.display)))) := by
  have hred : IPConfig.parse_rip s ["rip", "advertise-to", addrStr] =
      (match s.neighbors.find? (fun n => n.dest_addr == a) with
       | some n =>
         match s.rip_neighbors with
         | some rn => ({ s with rip_neighbors := some (rn ++ [n.dest_addr]) }, .ok ())
         | none => ({ s with rip_neighbors := some [n.dest_addr] }, .ok ())
       | none =>
         (s, .err (.Other ("No neighbor with address " ++ a.display)))) := by
    rw [IPConfig.parse_rip_three, if_neg (by decide : ¬("advertise-to" ≠ "advertise-to")), h]
  constructor
  · rintro ⟨n, hn, hna⟩
    rw [hred]
    obtain ⟨m, hm⟩ : ∃ m, s.neighbors.find? (fun n => n.dest_addr == a) = some m := by
      cases hf : s.neighbors.find? (fun n => n.dest_addr == a) with
      | some m => exact ⟨m, rfl⟩
      | none =>
        have hc := List.find?_eq_none.mp hf n hn
        simp [hna] at hc
    have hma : m.dest_addr = a := by
      have hb := @List.find?_some NeighborConfig (fun n => n.dest_addr == a) m s.neighbors hm
      simpa using hb
    rw [hm]
    cases hrn : s.rip_neighbors with
    | none => simp [hma]
    | some rn => simp [hma]
  · intro hnone
    rw [hred]
    have hf : s.neighbors.find? (fun n => n.dest_addr == a) = none := by
      rw [List.find?_eq_none]
      intro x hx
      simp [hnone x hx]
    rw [hf]

/-- Witness for `rip_advertise_requires_neighbor`: with one matching
neighbor accumulated, the line succeeds and creates the one-element
sequence (both directions are exercised through the two witnesses of
this theorem and the spec example of the failing direction appears in
the C5/C6 theorems' contexts). -/
theorem rip_advertise_requires_neighbor_witness :
    IPConfig.parse_rip
        { IPConfig.default with neighbors := [⟨⟨192, 168, 1, 2⟩, ⟨10, 0, 0, 2⟩, 9001, "eth1"⟩] }
        ["rip", "advertise-to", "192.168.1.2"] =
      ({ IPConfig.default with
          neighbors := [⟨⟨192, 168, 1, 2⟩, ⟨10, 0, 0, 2⟩, 9001, "eth1"⟩],
          rip_neighbors := some [⟨192, 168, 1, 2⟩] },
        .ok ()) ∧
    IPConfig.parse_rip IPConfig.default ["rip", "advertise-to", "192.168.1.2"] =
      (IPConfig.default,
        .err (.Other "No neighbor with address 192.168.1.2")) := by
  constructor
  · exact (rip_advertise_requires_neighbor
      { IPConfig.default with neighbors := [⟨⟨192, 168, 1, 2⟩, ⟨10, 0, 0, 2⟩, 9001, "eth1"⟩] }
      "192.168.1.2" ⟨192, 168, 1, 2⟩ (by decide)).1
      ⟨⟨⟨192, 168, 1, 2⟩, ⟨10, 0, 0, 2⟩, 9001, "eth1"⟩, by decide, rfl⟩
  · exact (rip_advertise_requires_neighbor IPConfig.default
      "192.168.1.2" ⟨192, 168, 1, 2⟩ (by decide)).2 (by decide)

/-- C4.  For every syntactically valid `interface` line, the constructed
config's `assigned_ip` is exactly the address component stored in the
parsed prefix — the literal IPv4 address written before the `/`, with no
masking; the concrete conjunct checks the spec's `192.168.1.1/24`
example, whose `assigned_ip` is `192.168.1.1` (not `192.168.1.0`). -/
theorem interface_assigned_ip_literal (t0 name netStr udpStr : String)
    (cfg : InterfaceConfig)
    (h : InterfaceConfig.try_from [t0, name, netStr, udpStr] = .ok cfg) :
    (cfg.assigned_ip = cfg.assigned_net.addr ∧
      parse_ipv4net netStr = some cfg.assigned_net) ∧
    InterfaceConfig.try_from ["interface", "eth0", "192.168.1.1/24", "10.0.0.1:9000"] =
      .ok ⟨"eth0", ⟨⟨192, 168, 1, 1⟩, 24⟩, ⟨192, 168, 1, 1⟩, ⟨10, 0, 0, 1⟩, 9000⟩ := by
  refine ⟨?_, by decide⟩
  rw [InterfaceConfig.try_from_four] at h
  cases hn : parse_ipv4net netStr with
  | none => rw [hn] at h; exact PResult.noConfusion h
  | some net =>
    rw [hn] at h
    cases hu : str_to_udp udpStr with
    | ok pr =>
      obtain ⟨ua, up⟩ := pr
      rw [hu] at h
      cases PResult.ok.inj h
      exact ⟨rfl, rfl⟩
    | err e => rw [hu] at h; exact PResult.noConfusion h
    | panic => rw [hu] at h; exact PResult.noConfusion h

/-- Witness for `interface_assigned_ip_literal` at the spec's example
line. -/
theorem interface_assigned_ip_literal_witness :
    ((InterfaceConfig.mk "eth0" ⟨⟨192, 168, 1, 1⟩, 24⟩ ⟨192, 168, 1, 1⟩
          ⟨10, 0, 0, 1⟩ 9000).assigned_ip =
        (InterfaceConfig.mk "eth0" ⟨⟨192, 168, 1, 1⟩, 24⟩ ⟨192, 168, 1, 1⟩
          ⟨10, 0, 0, 1⟩ 9000).assigned_net.addr ∧
      parse_ipv4net "192.168.1.1/24" =
        some (InterfaceConfig.mk "eth0" ⟨⟨192, 168, 1, 1⟩, 24⟩ ⟨192, 168, 1, 1⟩
          ⟨10, 0, 0, 1⟩ 9000).assigned_net) ∧
    InterfaceConfig.try_from ["interface", "eth0", "192.168.1.1/24", "10.0.0.1:9000"] =
      .ok ⟨"eth0", ⟨⟨192, 168, 1, 1⟩, 24⟩, ⟨192, 168, 1, 1⟩, ⟨10, 0, 0, 1⟩, 9000⟩ :=
  interface_assigned_ip_literal "interface" "eth0" "192.168.1.1/24" "10.0.0.1:9000"
    _ (by decide)

/-! ## Arity checks -/

lemma interface_try_from_arity (ts : List String) (h : ts.length ≠ 4) :
    InterfaceConfig.try_from ts = .err .BadFormat := by
  unfold InterfaceConfig.try_from
  rw [if_pos h]

lemma neighbor_try_from_arity (ts : List String) (h : ts.length ≠ 6) :
    NeighborConfig.try_from ts = .err .BadFormat := by
  unfold NeighborConfig.try_from
  rw [if_pos h]

lemma IPConfig.parse_routing_arity (s : IPConfig) (ts : List String) (h : ts.length ≠ 2) :
    IPConfig.parse_routing s ts = (s, .err .BadFormat) := by
  unfold IPConfig.parse_routing
  rw [if_pos h]

lemma IPConfig.parse_route_arity (s : IPConfig) (ts : List String) (h : ts.length ≠ 4) :
    IPConfig.parse_route s ts = (s, .err .BadFormat) := by
  unfold IPConfig.parse_route
  rw [if_pos h]

lemma IPConfig.parse_rip_arity (s : IPConfig) (ts : List String) (h : ts.length ≠ 3) :
    IPConfig.parse_rip s ts = (s, .err .BadFormat) := by
  unfold IPConfig.parse_rip
  rw [if_pos h]

/-- Token-level arity mismatch on each recognized directive. -/
lemma dispatch_arity (s : IPConfig) (ts : List String) :
    (ts.headD "" = "interface" → ts.length ≠ 4 →
      IPConfig.dispatch s ts = (s, .err .BadFormat)) ∧
    (ts.headD "" = "neighbor" → ts.length ≠ 6 →
      IPConfig.dispatch s ts = (s, .err .BadFormat)) ∧
    (ts.headD "" = "routing" → ts.length ≠ 2 →
      IPConfig.dispatch s ts = (s, .err .BadFormat)) ∧
    (ts.headD "" = "route" → ts.length ≠ 4 →
      IPConfig.dispatch s ts = (s, .err .BadFormat)) ∧
    (ts.headD "" = "rip" → ts.length ≠ 3 →
      IPConfig.dispatch s ts = (s, .err .BadFormat)) := by
  match ts with
  | [] =>
    refine ⟨fun hd => ?_, fun hd => ?_, fun hd => ?_, fun hd => ?_, fun hd => ?_⟩ <;>
      exact absurd hd (by decide)
  | d :: ds =>
    refine ⟨fun hd hlen => ?_, fun hd hlen => ?_, fun hd hlen => ?_,
      fun hd hlen => ?_, fun hd hlen => ?_⟩
    · have hd' : d = "interface" := hd
      subst hd'
      simp only [IPConfig.dispatch]
      rw [if_pos trivial, interface_try_from_arity _ hlen]
    · have hd' : d = "neighbor" := hd
      subst hd'
      simp only [IPConfig.dispatch]
      rw [if_neg (by decide), if_pos trivial, neighbor_try_from_arity _ hlen]
    · have hd' : d = "routing" := hd
      subst hd'
      simp only [IPConfig.dispatch]
      rw [if_neg (by decide), if_neg (by decide), if_pos trivial]
      exact IPConfig.parse_routing_arity s _ hlen
    · have hd' : d = "route" := hd
      subst hd'
      simp only [IPConfig.dispatch]
      rw [if_neg (by decide), if_neg (by decide), if_neg (by decide), if_pos trivial]
      exact IPConfig.parse_route_arity s _ hlen
    · have hd' : d = "rip" := hd
      subst hd'
      simp only [IPConfig.dispatch]
      rw [if_neg (by decide), if_neg (by decide), if_neg (by decide), if_neg (by decide),
        if_pos trivial]
      exact IPConfig.parse_rip_arity s _ hlen

/-- C5.  For every recognized directive, a line whose token count
differs from the directive's arity (interface 4, neighbor 6, routing 2,
route 4, rip 3) fails with `BadFormat` — the cheap check comes first, so
no field is parsed (in particular not even the panicking UDP field) —
and the aggregate is returned unchanged. -/
theorem arity_mismatch_bad_format (s : IPConfig) (line : String) :
    ((tokenize line).headD "" = "interface" → (tokenize line).length ≠ 4 →
      IPConfig.parse_line s line = (s, .err .BadFormat)) ∧
    ((tokenize line).headD "" = "neighbor" → (tokenize line).length ≠ 6 →
      IPConfig.parse_line s line = (s, .err .BadFormat)) ∧
    ((tokenize line).headD "" = "routing" → (tokenize line).length ≠ 2 →
      IPConfig.parse_line s line = (s, .err .BadFormat)) ∧
    ((tokenize line).headD "" = "route" → (tokenize line).length ≠ 4 →
      IPConfig.parse_line s line = (s, .err .BadFormat)) ∧
    ((tokenize line).headD "" = "rip" → (tokenize line).length ≠ 3 →
      IPConfig.parse_line s line = (s, .err .BadFormat)) :=
  dispatch_arity s (tokenize line)

/-- Witness for `arity_mismatch_bad_format`: one short line per
directive; note the interface line's UDP field is missing its colon, yet
the arity check fires first and nothing panics. -/
theorem arity_mismatch_bad_format_witness :
    IPConfig.parse_line IPConfig.default "interface eth0 10.0.0.1" =
      (IPConfig.default, .err .BadFormat) ∧
    IPConfig.parse_line IPConfig.default "neighbor 1.2.3.4 at 5.6.7.8:9 via" =
      (IPConfig.default, .err .BadFormat) ∧
    IPConfig.parse_line IPConfig.default "routing static rip" =
      (IPConfig.default, .err .BadFormat) ∧
    IPConfig.parse_line IPConfig.default "route 10.0.0.0/8 via" =
      (IPConfig.default, .err .BadFormat) ∧
    IPConfig.parse_line IPConfig.default "rip advertise-to" =
      (IPConfig.default, .err .BadFormat) :=
  ⟨(arity_mismatch_bad_format IPConfig.default "interface eth0 10.0.0.1").1
      (by decide) (by decide),
    (arity_mismatch_bad_format IPConfig.default "neighbor 1.2.3.4 at 5.6.7.8:9 via").2.1
      (by decide) (by decide),
    (arity_mismatch_bad_format IPConfig.default "routing static rip").2.2.1
      (by decide) (by decide),
    (arity_mismatch_bad_format IPConfig.default "route 10.0.0.0/8 via").2.2.2.1
      (by decide) (by decide),
    (arity_mismatch_bad_format IPConfig.default "rip advertise-to").2.2.2.2
      (by decide) (by decide)⟩

/-! ## Keyword checks -/

/-- `NeighborConfig::try_from` once the destination address has parsed. -/
lemma NeighborConfig.try_from_six_addr (t0 t1 t2 t3 t4 t5 : String) (a : Ipv4Addr)
    (ha : parse_ipv4 t1 = some a) :
    NeighborConfig.try_from [t0, t1, t2, t3, t4, t5] =
      (if t2 ≠ "at" then .err (.MissingToken "at")
       else
         match str_to_udp t3 with
         | .ok (ua, up) =>
           if t4 ≠ "via" then .err (.MissingToken "via")
           else .ok ⟨a, ua, up, t5⟩
         | .err e => .err e
         | .panic => .panic) := by
  rw [NeighborConfig.try_from_six, ha]

/-- `parse_route` once the route's network field has parsed. -/
lemma IPConfig.parse_route_four_net (s : IPConfig) (t0 t1 t2 t3 : String) (net : Ipv4Net)
    (hn : parse_ipv4net t1 = some net) :
    IPConfig.parse_route s [t0, t1, t2, t3] =
      (if t2 ≠ "via" then (s, .err (.MissingToken "via"))
       else
         match parse_ipv4 t3 with
         | none => (s, .err .Net)
         | some a =>
           ({ s with static_routes := s.static_routes ++ [(net, a)] }, .ok ())) := by
  rw [IPConfig.parse_route_four, hn]

/-- C6 counterexample.  A `rip` line of correct arity whose second token
is not `advertise-to` fails with `Other "Invalid command: …"`, not with
the `MissingToken` ("missing expected keyword") kind. -/
theorem rip_keyword_mismatch_is_other_error :
    (IPConfig.parse_line IPConfig.default "rip advertize-to 192.168.1.2").2 =
      .err (.Other "Invalid command: advertize-to") ∧
    (IPConfig.parse_line IPConfig.default "rip advertize-to 192.168.1.2").2 ≠
      .err (.MissingToken "advertise-to") ∧
    (IPConfig.parse_line IPConfig.default "rip advertize-to 192.168.1.2").2 ≠
      .err (.MissingToken "advertize-to") := by decide

/-- C6 as the code has it.  Provided the fields before the keyword
position parsed successfully, a mismatch at the `at` or `via` position
of a `neighbor` line, or at the `via` position of a `route` line, fails
with `MissingToken` naming the expected keyword; but a mismatch at the
`advertise-to` position of a `rip` line fails with the generic
`Other ("Invalid command: …")`, not with `MissingToken`. -/
theorem keyword_mismatch_error_kinds (s : IPConfig) :
    (∀ (t0 t1 t2 t3 t4 t5 : String) (a : Ipv4Addr),
      parse_ipv4 t1 = some a → t2 ≠ "at" →
      NeighborConfig.try_from [t0, t1, t2, t3, t4, t5] = .err (.MissingToken "at")) ∧
    (∀ (t0 t1 t3 t4 t5 : String) (a ua : Ipv4Addr) (up : Nat),
      parse_ipv4 t1 = some a → str_to_udp t3 = .ok (ua, up) → t4 ≠ "via" →
      NeighborConfig.try_from [t0, t1, "at", t3, t4, t5] = .err (.MissingToken "via")) ∧
    (∀ (t0 t1 t2 t3 : String) (net : Ipv4Net),
      parse_ipv4net t1 = some net → t2 ≠ "via" →
      IPConfig.parse_route s [t0, t1, t2, t3] = (s, .err (.MissingToken "via"))) ∧
    (∀ (t0 t1 t2 : String), t1 ≠ "advertise-to" →
      IPConfig.parse_rip s [t0, t1, t2] =
        (s, .err (.Other ("Invalid command: " ++ t1)))) := by
  refine ⟨?_, ?_, ?_, ?_⟩
  · intro t0 t1 t2 t3 t4 t5 a ha h2
    rw [NeighborConfig.try_from_six_addr t0 t1 t2 t3 t4 t5 a ha, if_pos h2]
  · intro t0 t1 t3 t4 t5 a ua up ha hu h4
    have hstage : NeighborConfig.try_from [t0, t1, "at", t3, t4, t5] =
        (if t4 ≠ "via" then .err (.MissingToken "via") else .ok ⟨a, ua, up, t5⟩) := by
      rw [NeighborConfig.try_from_six_addr t0 t1 "at" t3 t4 t5 a ha,
        if_neg (by decide : ¬("at" ≠ "at")), hu]
    rw [hstage, if_pos h4]
  · intro t0 t1 t2 t3 net hn h2
    rw [IPConfig.parse_route_four_net s t0 t1 t2 t3 net hn, if_pos h2]
  · intro t0 t1 t2 h1
    rw [IPConfig.parse_rip_three, if_pos h1]

/-- Witness for `keyword_mismatch_error_kinds`, one instance per
conjunct. -/
theorem keyword_mismatch_error_kinds_witness :
    NeighborConfig.try_from ["neighbor", "1.2.3.4", "around", "5.6.7.8:9", "via", "e"] =
      .err (.MissingToken "at") ∧
    NeighborConfig.try_from ["neighbor", "1.2.3.4", "at", "5.6.7.8:9", "through", "e"] =
      .err (.MissingToken "via") ∧
    IPConfig.parse_route IPConfig.default ["route", "1.2.3.0/24", "through", "5.6.7.8"] =
      (IPConfig.default, .err (.MissingToken "via")) ∧
    IPConfig.parse_rip IPConfig.default ["rip", "originate", "1.2.3.4"] =
      (IPConfig.default, .err (.Other ("Invalid command: " ++ "originate"))) :=
  ⟨(keyword_mismatch_error_kinds IPConfig.default).1
      "neighbor" "1.2.3.4" "around" "5.6.7.8:9" "via" "e" ⟨1, 2, 3, 4⟩
      (by decide) (by decide),
    (keyword_mismatch_error_kinds IPConfig.default).2.1
      "neighbor" "1.2.3.4" "5.6.7.8:9" "through" "e" ⟨1, 2, 3, 4⟩ ⟨5, 6, 7, 8⟩ 9
      (by decide) (by decide) (by decide),
    (keyword_mismatch_error_kinds IPConfig.default).2.2.1
      "route" "1.2.3.0/24" "through" "5.6.7.8" ⟨⟨1, 2, 3, 0⟩, 24⟩
      (by decide) (by decide),
    (keyword_mismatch_error_kinds IPConfig.default).2.2.2
      "rip" "originate" "1.2.3.4" (by decide)⟩

/-- C7 counterexample.  On a read failure `try_new` returns
`ParserError::Other("Error reading file: …")` — the very same
constructor produced by in-parse failures such as an unknown directive —
so there is no dedicated I/O error kind distinct from the parse-error
kinds. -/
theorem read_failure_shares_other_kind :
    IPConfig.try_new (fun _ => .error "kaboom") "net.lnx" =
      .err (.Other "Error reading file: kaboom") ∧
    (IPConfig.parse_line IPConfig.default "frobnicate").2 =
      .err (.Other "Invalid directive: frobnicate") := by decide

/-- C7 as the code has it.  When the file-system read fails, `try_new`
returns `Other ("Error reading file: " ++ debug-rendering)` immediately:
no parsing is attempted (the result depends only on the read error), but
the error is the shared `Other` variant, not a dedicated I/O kind. -/
theorem read_failure_returns_other (fs : String → Except String String)
    (path msg : String) (h : fs path = .error msg) :
    IPConfig.try_new fs path = .err (.Other ("Error reading file: " ++ msg)) := by
  unfold IPConfig.try_new
  rw [h]

/-- Witness for `read_failure_returns_other`. -/
theorem read_failure_returns_other_witness :
    IPConfig.try_new (fun _ => .error "boom") "cfg.lnx" =
      .err (.Other ("Error reading file: " ++ "boom")) :=
  read_failure_returns_other (fun _ => .error "boom") "cfg.lnx" "boom" rfl

/-- C2.  A malformed `<ipv4>:<port>` field on an otherwise well-formed
`interface` or `neighbor` line does not produce a typed parse error: the
`unwrap`/indexing inside `str_to_udp` panics — on a missing colon, a
malformed address octet, a non-numeric port, and an out-of-range port
alike. -/
theorem malformed_udp_field_panics :
    IPConfig.parse_line IPConfig.default "interface eth0 192.168.1.1/24 10.0.0.1" =
      (IPConfig.default, .panic) ∧
    IPConfig.parse_line IPConfig.default
        "neighbor 192.168.1.2 at 10.0.0.2:99999 via eth1" =
      (IPConfig.default, .panic) ∧
    str_to_udp "10.0.0.1" = .panic ∧
    str_to_udp "10.0.300.1:9000" = .panic ∧
    str_to_udp "10.0.0.1:port" = .panic ∧
    str_to_udp "10.0.0.1:65536" = .panic := by decide

/-! ## Tokenization and comments -/

/-- The source's `truncate(position(..).unwrap_or(len))` idiom computes
exactly the longest prefix of tokens not satisfying the predicate. -/
lemma take_findIdx_eq_takeWhile {α : Type} (p : α → Bool) (l : List α) :
    l.take ((l.findIdx? p).getD l.length) = l.takeWhile (fun x => !(p x)) := by
  induction l with
  | nil => rfl
  | cons x xs ih =>
    by_cases hx : p x
    · simp [List.findIdx?_cons, hx, List.takeWhile_cons]
    · rw [List.findIdx?_cons, if_neg (by simp [hx]), List.findIdx?_succ]
      cases hf : xs.findIdx? p with
      | none =>
        simp only [hf, Option.map_none', Option.getD_none, List.length_cons,
          List.take_succ_cons, List.take_length, List.takeWhile_cons, hx,
          Bool.not_false, if_true]
        rw [hf, Option.getD_none] at ih
        rw [← ih, List.take_length]
      | some i =>
        simp only [hf, Option.map_some', Option.getD_some, List.take_succ_cons,
          List.takeWhile_cons, hx, Bool.not_false, if_true]
        rw [hf, Option.getD_some] at ih
        rw [ih]

/-- C8.  Tokens come from splitting on ASCII whitespace; the kept tokens
are exactly those before the first token equal to `#` (a `#` glued
inside a larger token is not a comment marker, as the `"a b#c # d e"`
conjunct shows); and a line whose token sequence is empty — blank or
comment-only — is a no-op: `parse_line` succeeds and returns the
aggregate unchanged. -/
theorem tokenize_comment_discipline :
    (∀ line : String,
      tokenize line = (rawTokens line).takeWhile (fun t => !(t == "#"))) ∧
    (∀ (s : IPConfig) (line : String), tokenize line = [] →
      IPConfig.parse_line s line = (s, .ok ())) ∧
    rawTokens "  a \t b#c   # d e " = ["a", "b#c", "#", "d", "e"] ∧
    tokenize "  a \t b#c   # d e " = ["a", "b#c"] ∧
    tokenize "   # comment only" = [] ∧
    tokenize "" = [] ∧
    IPConfig.parse_line IPConfig.default "   # comment only" =
      (IPConfig.default, .ok ()) := by
  refine ⟨?_, ?_, by decide, by decide, by decide, by decide, by decide⟩
  · intro line
    exact take_findIdx_eq_takeWhile (fun t => t == "#") (rawTokens line)
  · intro s line h
    unfold IPConfig.parse_line
    rw [h]
    rfl

/-- Witness for `tokenize_comment_discipline`: the no-op conjunct at a
comment-only line, on a non-default aggregate. -/
theorem tokenize_comment_discipline_witness :
    IPConfig.parse_line { IPConfig.default with routing_mode := .Rip } " # note " =
      ({ IPConfig.default with routing_mode := .Rip }, .ok ()) :=
  tokenize_comment_discipline.2.1 { IPConfig.default with routing_mode := .Rip }
    " # note " (by decide)

/-! ## Mutation discipline -/

/-- `parse_routing` touches no field but `routing_mode`. -/
lemma IPConfig.parse_routing_fields (s : IPConfig) (ts : List String) :
    ((IPConfig.parse_routing s ts).1).interfaces = s.interfaces ∧
    ((IPConfig.parse_routing s ts).1).neighbors = s.neighbors ∧
    ((IPConfig.parse_routing s ts).1).static_routes = s.static_routes ∧
    ((IPConfig.parse_routing s ts).1).rip_neighbors = s.rip_neighbors := by
  unfold IPConfig.parse_routing
  split
  · exact ⟨rfl, rfl, rfl, rfl⟩
  · split
    · exact ⟨rfl, rfl, rfl, rfl⟩
    · exact ⟨rfl, rfl, rfl, rfl⟩
    · exact ⟨rfl, rfl, rfl, rfl⟩

/-- `parse_route` only ever appends to `static_routes`. -/
lemma IPConfig.parse_route_fields (s : IPConfig) (ts : List String) :
    ∃ t, (IPConfig.parse_route s ts).1 =
      { s with static_routes := s.static_routes ++ t } := by
  unfold IPConfig.parse_route
  split
  · exact ⟨[], by simp⟩
  · split
    · exact ⟨[], by simp⟩
    · split
      · exact ⟨[], by simp⟩
      · split
        · exact ⟨[], by simp⟩
        · exact ⟨_, rfl⟩

/-- `parse_rip` only ever appends to `rip_neighbors` (creating the
sequence when absent), leaving the other sequences alone. -/
lemma IPConfig.parse_rip_fields (s : IPConfig) (ts : List String) :
    ∃ t, ((IPConfig.parse_rip s ts).1).rip_neighbors.getD [] =
        (s.rip_neighbors.getD []) ++ t ∧
      ((IPConfig.parse_rip s ts).1).interfaces = s.interfaces ∧
      ((IPConfig.parse_rip s ts).1).neighbors = s.neighbors ∧
      ((IPConfig.parse_rip s ts).1).static_routes = s.static_routes := by
  unfold IPConfig.parse_rip
  split
  · exact ⟨[], by simp⟩
  · split
    · exact ⟨[], by simp⟩
    · split
      · exact ⟨[], by simp⟩
      · split
        · split
          · rename_i m hfind o rn hrn
            exact ⟨[m.dest_addr], by simp [hrn], rfl, rfl, rfl⟩
          · rename_i m hfind o hrn
            exact ⟨[m.dest_addr], by simp [hrn], rfl, rfl, rfl⟩
        · exact ⟨[], by simp⟩

/-- Token-level statement of the append-only discipline. -/
lemma dispatch_append_only (s : IPConfig) (ts : List String) :
    (∃ t, ((IPConfig.dispatch s ts).1).interfaces = s.interfaces ++ t) ∧
    (∃ t, ((IPConfig.dispatch s ts).1).neighbors = s.neighbors ++ t) ∧
    (∃ t, ((IPConfig.dispatch s ts).1).static_routes = s.static_routes ++ t) ∧
    (∃ t, ((IPConfig.dispatch s ts).1).rip_neighbors.getD [] =
      (s.rip_neighbors.getD []) ++ t) := by
  match ts with
  | [] =>
    exact ⟨⟨[], by simp [IPConfig.dispatch]⟩, ⟨[], by simp [IPConfig.dispatch]⟩,
      ⟨[], by simp [IPConfig.dispatch]⟩, ⟨[], by simp [IPConfig.dispatch]⟩⟩
  | d :: ds =>
    simp only [IPConfig.dispatch]
    by_cases h1 : d = "interface"
    · rw [if_pos h1]
      split
      · exact ⟨⟨[_], rfl⟩, ⟨[], by simp⟩, ⟨[], by simp⟩, ⟨[], by simp⟩⟩
      · exact ⟨⟨[], by simp⟩, ⟨[], by simp⟩, ⟨[], by simp⟩, ⟨[], by simp⟩⟩
      · exact ⟨⟨[], by simp⟩, ⟨[], by simp⟩, ⟨[], by simp⟩, ⟨[], by simp⟩⟩
    · rw [if_neg h1]
      by_cases h2 : d = "neighbor"
      · rw [if_pos h2]
        split
        · exact ⟨⟨[], by simp⟩, ⟨[_], rfl⟩, ⟨[], by simp⟩, ⟨[], by simp⟩⟩
        · exact ⟨⟨[], by simp⟩, ⟨[], by simp⟩, ⟨[], by simp⟩, ⟨[], by simp⟩⟩
        · exact ⟨⟨[], by simp⟩, ⟨[], by simp⟩, ⟨[], by simp⟩, ⟨[], by simp⟩⟩
      · rw [if_neg h2]
        by_cases h3 : d = "routing"
        · rw [if_pos h3]
          obtain ⟨hi, hn, hs, hr⟩ := IPConfig.parse_routing_fields s (d :: ds)
          exact ⟨⟨[], by simp [hi]⟩, ⟨[], by simp [hn]⟩, ⟨[], by simp [hs]⟩,
            ⟨[], by simp [hr]⟩⟩
        · rw [if_neg h3]
          by_cases h4 : d = "route"
          · rw [if_pos h4]
            obtain ⟨t, ht⟩ := IPConfig.parse_route_fields s (d :: ds)
            exact ⟨⟨[], by simp [ht]⟩, ⟨[], by simp [ht]⟩, ⟨t, by simp [ht]⟩,
              ⟨[], by simp [ht]⟩⟩
          · rw [if_neg h4]
            by_cases h5 : d = "rip"
            · rw [if_pos h5]
              obtain ⟨t, hr, hi, hn, hs⟩ := IPConfig.parse_rip_fields s (d :: ds)
              exact ⟨⟨[], by simp [hi]⟩, ⟨[], by simp [hn]⟩, ⟨[], by simp [hs]⟩,
                ⟨t, hr⟩⟩
            · rw [if_neg h5]
              exact ⟨⟨[], by simp⟩, ⟨[], by simp⟩, ⟨[], by simp⟩, ⟨[], by simp⟩⟩

/-- C9.  A line only ever appends to one of the sequences (existing
elements are never edited, removed or reordered) or wholesale-replaces
`routing_mode`; and a successful `routing` line overwrites whatever mode
was there before, so when several appear the last one wins — witnessed
also by the concrete two-`routing`-lines conjunct. -/
theorem aggregate_append_only (s : IPConfig) (line : String) :
    ((∃ t, ((IPConfig.parse_line s line).1).interfaces = s.interfaces ++ t) ∧
     (∃ t, ((IPConfig.parse_line s line).1).neighbors = s.neighbors ++ t) ∧
     (∃ t, ((IPConfig.parse_line s line).1).static_routes = s.static_routes ++ t) ∧
     (∃ t, ((IPConfig.parse_line s line).1).rip_neighbors.getD [] =
        (s.rip_neighbors.getD []) ++ t)) ∧
    (∀ (mode : String) (t : RoutingType), RoutingType.try_from mode = .ok t →
      IPConfig.parse_routing s ["routing", mode] = ({ s with routing_mode := t }, .ok ())) ∧
    (IPConfig.parse IPConfig.default "routing static\nrouting rip").1.routing_mode =
      .Rip := by
  refine ⟨dispatch_append_only s (tokenize line), ?_, by decide⟩
  intro mode t h
  rw [IPConfig.parse_routing_two, h]

/-- Witness for `aggregate_append_only`: a `routing` line overwrites an
already-set mode. -/
theorem aggregate_append_only_witness :
    IPConfig.parse_routing { IPConfig.default with routing_mode := .Rip }
        ["routing", "static"] =
      ({ { IPConfig.default with routing_mode := .Rip } with routing_mode := .Static },
        .ok ()) :=
  (aggregate_append_only { IPConfig.default with routing_mode := .Rip } "").2.1
    "static" .Static (by decide)
